import Mathlib

/-!
Verification development for the ADProsilica areaDetector driver
(`ADApp/prosilicaSrc/prosilica.cpp`).

Modelling conventions, applied uniformly:

* Status codes (`asynStatus`, `tPvErr`) are natural numbers, `0` meaning
  success; the driver accumulates them with bitwise or (`status |= ...`)
  and only ever tests them for non-zero, which `|||` on `Nat` models
  exactly.
* Hardware (PvAPI) calls are modelled by an environment record `HwEnv`
  that fixes, per attribute name, the status and value each call returns;
  the attribute writes and commands a driver routine issues are recorded
  in an explicit trace (`HwOp` list).
* The parameter library (`setIntegerParam`/`getIntegerParam`/...) is a
  total typed store; its set/get calls return success for the in-range
  indices used by this driver, so they are modelled as pure store
  updates/lookups contributing status 0.
* `double`/`tPvFloat32` arithmetic is modelled exactly over `ℚ`.
* `tPvUint32` conversions at hardware boundaries reduce modulo `2^32`.
* Parameter indices come from `ADStdDriverParams.h`, which lives in the
  areaDetector core, outside this repository.  Only two facts about them
  are used by the driver source: indices are pairwise distinct, and each
  base parameter is immediately followed by its read-back (`_RBV`) twin
  (the source writes `setIntegerParam(addr, function+1, value)` for the
  read-back).  The concrete numbers below realise exactly that layout.
-/

namespace Prosilica

/-- asynSuccess status code (0). -/
def asynSuccess : Nat := 0

/-- asynError status code (non-zero; the driver only tests zero vs non-zero). -/
def asynError : Nat := 3

/-- MAX_FRAMES: number of PvApi frame buffers. -/
def MAX_FRAMES : Nat := 2

/-- Pointwise update of a total store, mirroring the parameter library table. -/
def upd {α : Type} (f : Nat → α) (i : Nat) (v : α) : Nat → α :=
  fun j => if j = i then v else f j

theorem upd_self {α : Type} (f : Nat → α) (i : Nat) (v : α) : upd f i v i = v := by
  simp [upd]

theorem upd_ne {α : Type} (f : Nat → α) (i j : Nat) (v : α) (h : j ≠ i) :
    upd f i v j = f j := by
  simp [upd, h]

/-- Bitwise-or of two statuses is zero exactly when both are. -/
theorem lor_eq_zero_iff (a b : Nat) : a ||| b = 0 ↔ a = 0 ∧ b = 0 := by
  constructor
  · intro h
    refine ⟨Nat.eq_of_testBit_eq fun i => ?_, Nat.eq_of_testBit_eq fun i => ?_⟩ <;>
      have hb := congrArg (fun n => Nat.testBit n i) h <;>
      simp only [Nat.testBit_lor, Nat.zero_testBit, Bool.or_eq_false_iff] at hb <;>
      simp [hb.1, hb.2]
  · rintro ⟨rfl, rfl⟩; rfl

/-! Parameter indices (`ADStdDriverParams.h` layout: base, then `_RBV`). -/

def ADManufacturer : Nat := 0
def ADManufacturer_RBV : Nat := 1
def ADModel : Nat := 2
def ADModel_RBV : Nat := 3
def ADGain : Nat := 4
def ADGain_RBV : Nat := 5
def ADBinX : Nat := 6
def ADBinX_RBV : Nat := 7
def ADBinY : Nat := 8
def ADBinY_RBV : Nat := 9
def ADMinX : Nat := 10
def ADMinX_RBV : Nat := 11
def ADMinY : Nat := 12
def ADMinY_RBV : Nat := 13
def ADSizeX : Nat := 14
def ADSizeX_RBV : Nat := 15
def ADSizeY : Nat := 16
def ADSizeY_RBV : Nat := 17
def ADMaxSizeX_RBV : Nat := 19
def ADMaxSizeY_RBV : Nat := 21
def ADImageSizeX_RBV : Nat := 23
def ADImageSizeY_RBV : Nat := 25
def ADImageSize_RBV : Nat := 27
def ADDataType : Nat := 28
def ADDataType_RBV : Nat := 29
def ADImageMode : Nat := 30
def ADImageMode_RBV : Nat := 31
def ADNumExposures_RBV : Nat := 33
def ADNumImages : Nat := 34
def ADNumImages_RBV : Nat := 35
def ADAcquireTime : Nat := 36
def ADAcquireTime_RBV : Nat := 37
def ADAcquirePeriod : Nat := 38
def ADAcquirePeriod_RBV : Nat := 39
def ADStatus_RBV : Nat := 41
def ADAcquire : Nat := 42
def ADAcquire_RBV : Nat := 43
def ADImageCounter : Nat := 44
def ADImageCounter_RBV : Nat := 45
def ADAutoSave : Nat := 46
def ADWriteFile : Nat := 48
def ADFileFormat : Nat := 50
def ADFullFileName_RBV : Nat := 53
def ADTriggerMode : Nat := 54
def ADTriggerMode_RBV : Nat := 55
def PSReadStatistics : Nat := 56
def PSStatDriverType_RBV : Nat := 58
def PSStatFilterVersion_RBV : Nat := 59
def PSStatFrameRate_RBV : Nat := 60
def PSStatFramesCompleted_RBV : Nat := 61
def PSStatFramesDropped_RBV : Nat := 62
def PSStatPacketsErroneous_RBV : Nat := 63
def PSStatPacketsMissed_RBV : Nat := 64
def PSStatPacketsReceived_RBV : Nat := 65
def PSStatPacketsRequested_RBV : Nat := 66
def PSStatPacketsResent_RBV : Nat := 67
def PSBadFrameCounter_RBV : Nat := 68

/-! Logical enum values (`ADInterface.h` / `NDArray.h`). -/

def ADImageSingle : Int := 0
def ADImageMultiple : Int := 1
def ADImageContinuous : Int := 2
def ADStatusIdle : Int := 0
def ADStatusAcquire : Int := 1
def NDInt8 : Int := 0
def NDUInt8 : Int := 1
def NDInt16 : Int := 2
def NDUInt16 : Int := 3
def NDInt32 : Int := 4
def NDUInt32 : Int := 5

/-- The fixed 7-entry trigger-mode table (`PSTriggerStartStrings`). -/
def PSTriggerStartStrings : List String :=
  ["Freerun", "SyncIn1", "SyncIn2", "SyncIn3", "SyncIn4", "FixedRate", "Software"]

/-- C conversion of a signed value to `tPvUint32` (reduction mod `2^32`). -/
def toUint32 (i : Int) : Nat := (i % 4294967296).toNat

/-- C truncating cast of a floating value to `tPvUint32`
(for the non-negative arguments the driver produces, truncation = floor). -/
def toUint32q (q : ℚ) : Nat := (Int.toNat ⌊q⌋) % 4294967296

/-- The typed parameter store behind `setIntegerParam` / `setDoubleParam` /
`setStringParam` and the corresponding getters. -/
structure Store where
  ints : Nat → Int
  doubles : Nat → ℚ
  strs : Nat → String

def setIntegerParam (p : Store) (idx : Nat) (v : Int) : Store :=
  { p with ints := upd p.ints idx v }

def setDoubleParam (p : Store) (idx : Nat) (v : ℚ) : Store :=
  { p with doubles := upd p.doubles idx v }

def setStringParam (p : Store) (idx : Nat) (v : String) : Store :=
  { p with strs := upd p.strs idx v }

/-- Model of an `NDArray` image buffer (the fields the driver reads/writes). -/
structure NDArrayM where
  dim0 : Nat
  dim1 : Nat
  dataType : Int
  uniqueId : Nat
  timeStamp : ℚ
deriving DecidableEq

/-- One hardware (PvAPI) operation issued by the driver, as recorded in traces. -/
inductive HwOp where
  | attrUint32Set (name : String) (value : Nat)
  | attrFloat32Set (name : String) (value : ℚ)
  | attrEnumSet (name : String) (value : String)
  | commandRun (name : String)
  | attrUint32Get (name : String)
  | attrFloat32Get (name : String)
  | attrEnumGet (name : String)
  | attrStringGet (name : String)
deriving DecidableEq

/-- Is this operation a hardware attribute write (as opposed to a read or command)? -/
def HwOp.isAttrWrite : HwOp → Bool
  | .attrUint32Set _ _ => true
  | .attrFloat32Set _ _ => true
  | .attrEnumSet _ _ => true
  | _ => false

/-- The hardware/vendor-SDK environment: the status (and value) every PvAPI
call returns during one modelled scenario.  A get returns `(status, value)`. -/
structure HwEnv where
  attrUint32Get : String → Nat × Nat
  attrFloat32Get : String → Nat × ℚ
  attrEnumGet : String → Nat × String
  attrStringGet : String → Nat × String
  attrUint32Set : String → Nat → Nat
  attrFloat32Set : String → ℚ → Nat
  attrEnumSet : String → String → Nat
  commandRun : String → Nat
  cameraInfoStatus : Nat
  permittedAccessMaster : Bool
  cameraOpenStatus : Nat
  adjustPacketSizeStatus : Nat
  captureStartStatus : Nat
  captureQueueClearStatus : Nat
  captureEndStatus : Nat
  cameraCloseStatus : Nat
  queueFrameStatus : Nat → Nat
  alloc : Nat → Option NDArrayM
  freshImage : NDArrayM
  createFileNameStatus : Nat
  fullFileName : String
  tiffStatus : Int
  displayName : String

/-- The mutable per-camera session state of the `prosilica` driver object. -/
structure Session where
  pvHandle : Bool
  connectedPublished : Bool
  store : Store
  framesRemaining : Int
  timeStampFrequency : Nat
  sensorType : String
  sensorBits : Nat
  sensorWidth : Nat
  sensorHeight : Nat
  maxFrameSize : Nat
  IPAddress : String
  pArray : Option NDArrayM
  slots : List (Option NDArrayM)

/-- The fixed get-trace of `prosilica::getGeometry`. -/
def getGeometryOps : List HwOp :=
  [.attrUint32Get "BinningX", .attrUint32Get "BinningY",
   .attrUint32Get "RegionX", .attrUint32Get "RegionY",
   .attrUint32Get "Width", .attrUint32Get "Height"]

/-- `prosilica::setGeometry` (prosilica.cpp:312-340): read the six logical
geometry parameters, clamp the bin factors to at least 1, and write the six
hardware attributes, with region/size divided by the bin factor
(C `int` division). -/
def setGeometry (env : HwEnv) (p : Store) : Nat × List HwOp :=
  let binX := p.ints ADBinX
  let binX := if binX < 1 then 1 else binX
  let binY := p.ints ADBinY
  let binY := if binY < 1 then 1 else binY
  let minX := p.ints ADMinX
  let minY := p.ints ADMinY
  let sizeX := p.ints ADSizeX
  let sizeY := p.ints ADSizeY
  let st :=
    env.attrUint32Set "BinningX" (toUint32 binX) |||
    env.attrUint32Set "BinningY" (toUint32 binY) |||
    env.attrUint32Set "RegionX" (toUint32 (Int.tdiv minX binX)) |||
    env.attrUint32Set "RegionY" (toUint32 (Int.tdiv minY binY)) |||
    env.attrUint32Set "Width" (toUint32 (Int.tdiv sizeX binX)) |||
    env.attrUint32Set "Height" (toUint32 (Int.tdiv sizeY binY))
  (st,
   [.attrUint32Set "BinningX" (toUint32 binX),
    .attrUint32Set "BinningY" (toUint32 binY),
    .attrUint32Set "RegionX" (toUint32 (Int.tdiv minX binX)),
    .attrUint32Set "RegionY" (toUint32 (Int.tdiv minY binY)),
    .attrUint32Set "Width" (toUint32 (Int.tdiv sizeX binX)),
    .attrUint32Set "Height" (toUint32 (Int.tdiv sizeY binY))])

/-- `prosilica::getGeometry` (prosilica.cpp:342-376): read the six hardware
attributes and publish the logical parameters (and their read-backs), with
origin and size multiplied back by the bin factors (`tPvUint32` arithmetic). -/
def getGeometry (env : HwEnv) (p : Store) : Nat × Store × List HwOp :=
  let rBinX := env.attrUint32Get "BinningX"
  let rBinY := env.attrUint32Get "BinningY"
  let rMinX := env.attrUint32Get "RegionX"
  let rMinY := env.attrUint32Get "RegionY"
  let rSizeX := env.attrUint32Get "Width"
  let rSizeY := env.attrUint32Get "Height"
  let st := rBinX.1 ||| rBinY.1 ||| rMinX.1 ||| rMinY.1 ||| rSizeX.1 ||| rSizeY.1
  let binX := rBinX.2
  let binY := rBinY.2
  let minX := rMinX.2
  let minY := rMinY.2
  let sizeX := rSizeX.2
  let sizeY := rSizeY.2
  let p := setIntegerParam p ADBinX (binX : Int)
  let p := setIntegerParam p ADBinY (binY : Int)
  let p := setIntegerParam p ADMinX ((minX * binX) % 4294967296 : Nat)
  let p := setIntegerParam p ADMinY ((minY * binY) % 4294967296 : Nat)
  let p := setIntegerParam p ADSizeX ((sizeX * binX) % 4294967296 : Nat)
  let p := setIntegerParam p ADSizeY ((sizeY * binY) % 4294967296 : Nat)
  let p := setIntegerParam p ADBinX_RBV (binX : Int)
  let p := setIntegerParam p ADBinY_RBV (binY : Int)
  let p := setIntegerParam p ADMinX_RBV ((minX * binX) % 4294967296 : Nat)
  let p := setIntegerParam p ADMinY_RBV ((minY * binY) % 4294967296 : Nat)
  let p := setIntegerParam p ADSizeX_RBV ((sizeX * binX) % 4294967296 : Nat)
  let p := setIntegerParam p ADSizeY_RBV ((sizeY * binY) % 4294967296 : Nat)
  let p := setIntegerParam p ADImageSizeX_RBV (sizeX : Int)
  let p := setIntegerParam p ADImageSizeY_RBV (sizeY : Int)
  (st, p, getGeometryOps)

/-- The fixed get-trace of `prosilica::readStats`. -/
def readStatsOps : List HwOp :=
  [.attrEnumGet "StatDriverType", .attrStringGet "StatFilterVersion",
   .attrFloat32Get "StatFrameRate", .attrUint32Get "StatFramesCompleted",
   .attrUint32Get "StatFramesDropped", .attrUint32Get "StatPacketsErroneous",
   .attrUint32Get "StatPacketsMissed", .attrUint32Get "StatPacketsReceived",
   .attrUint32Get "StatPacketsRequested", .attrUint32Get "StatPacketsResent"]

/-- `prosilica::readStats` (prosilica.cpp:378-412): poll the statistics
attributes and publish them. -/
def readStats (env : HwEnv) (p : Store) : Nat × Store × List HwOp :=
  let r1 := env.attrEnumGet "StatDriverType"
  let p := setStringParam p PSStatDriverType_RBV r1.2
  let r2 := env.attrStringGet "StatFilterVersion"
  let p := setStringParam p PSStatFilterVersion_RBV r2.2
  let r3 := env.attrFloat32Get "StatFrameRate"
  let p := setDoubleParam p PSStatFrameRate_RBV r3.2
  let r4 := env.attrUint32Get "StatFramesCompleted"
  let p := setIntegerParam p PSStatFramesCompleted_RBV (r4.2 : Int)
  let r5 := env.attrUint32Get "StatFramesDropped"
  let p := setIntegerParam p PSStatFramesDropped_RBV (r5.2 : Int)
  let r6 := env.attrUint32Get "StatPacketsErroneous"
  let p := setIntegerParam p PSStatPacketsErroneous_RBV (r6.2 : Int)
  let r7 := env.attrUint32Get "StatPacketsMissed"
  let p := setIntegerParam p PSStatPacketsMissed_RBV (r7.2 : Int)
  let r8 := env.attrUint32Get "StatPacketsReceived"
  let p := setIntegerParam p PSStatPacketsReceived_RBV (r8.2 : Int)
  let r9 := env.attrUint32Get "StatPacketsRequested"
  let p := setIntegerParam p PSStatPacketsRequested_RBV (r9.2 : Int)
  let r10 := env.attrUint32Get "StatPacketsResent"
  let p := setIntegerParam p PSStatPacketsResent_RBV (r10.2 : Int)
  (r1.1 ||| r2.1 ||| r3.1 ||| r4.1 ||| r5.1 ||| r6.1 ||| r7.1 ||| r8.1 |||
     r9.1 ||| r10.1,
   p, readStatsOps)

/-- The fixed get-trace of `prosilica::readParameters`. -/
def readParametersOps : List HwOp :=
  [.attrUint32Get "TotalBytesPerFrame", .attrEnumGet "PixelFormat"] ++
  getGeometryOps ++
  [.attrUint32Get "AcquisitionFrameCount", .attrEnumGet "AcquisitionMode",
   .attrEnumGet "FrameStartTriggerMode", .attrUint32Get "ExposureValue",
   .attrFloat32Get "FrameRate", .attrUint32Get "GainValue"]

/-- `prosilica::readParameters` (prosilica.cpp:414-486): the consolidated
hardware poll run after every configuration write.  Maps the hardware
acquisition-mode and trigger-mode enum strings back to logical indices
(unknown strings publish a default and contribute an error), converts
integer microseconds to seconds, and guards the frame-rate reciprocal
against a zero rate (`if (fltVal == 0.) fltVal = 1;`). -/
def readParameters (env : HwEnv) (p : Store) : Nat × Store × List HwOp :=
  let r1 := env.attrUint32Get "TotalBytesPerFrame"
  let p := setIntegerParam p ADImageSize_RBV (r1.2 : Int)
  let r2 := env.attrEnumGet "PixelFormat"
  let dt : Int :=
    if r2.2 = "Mono8" then NDUInt8
    else if r2.2 = "Mono16" then NDUInt16
    else -1
  let p := setIntegerParam p ADDataType_RBV dt
  let rg := getGeometry env p
  let p := rg.2.1
  let r4 := env.attrUint32Get "AcquisitionFrameCount"
  let p := setIntegerParam p ADNumImages_RBV (r4.2 : Int)
  let r5 := env.attrEnumGet "AcquisitionMode"
  let modeErr : Nat := if r5.2 = "SingleFrame" ∨ r5.2 = "MultiFrame" ∨
      r5.2 = "Recorder" ∨ r5.2 = "Continuous" then 0 else asynError
  let imageMode : Int :=
    if r5.2 = "SingleFrame" then ADImageSingle
    else if r5.2 = "MultiFrame" then ADImageMultiple
    else if r5.2 = "Recorder" then ADImageMultiple
    else if r5.2 = "Continuous" then ADImageContinuous
    else 0
  let p := setIntegerParam p ADImageMode_RBV imageMode
  let r6 := env.attrEnumGet "FrameStartTriggerMode"
  let trigFound := List.findIdx? (fun t => t == r6.2) PSTriggerStartStrings
  let trigErr : Nat := match trigFound with
    | some _ => 0
    | none => asynError
  let p := match trigFound with
    | some i => setIntegerParam p ADTriggerMode_RBV (i : Int)
    | none => setIntegerParam p ADTriggerMode_RBV 0
  let p := setIntegerParam p ADNumExposures_RBV 1
  let r7 := env.attrUint32Get "ExposureValue"
  let p := setDoubleParam p ADAcquireTime_RBV ((r7.2 : ℚ) / 1000000)
  let r8 := env.attrFloat32Get "FrameRate"
  let fltVal := if r8.2 = 0 then 1 else r8.2
  let p := setDoubleParam p ADAcquirePeriod_RBV (1 / fltVal)
  let r9 := env.attrUint32Get "GainValue"
  let p := setDoubleParam p ADGain_RBV (r9.2 : ℚ)
  (r1.1 ||| r2.1 ||| rg.1 ||| r4.1 ||| r5.1 ||| modeErr ||| r6.1 ||| trigErr |||
     r7.1 ||| r8.1 ||| r9.1,
   p, readParametersOps)

/-- `prosilica::writeFile` (prosilica.cpp:137-193): save the current image as
a TIFF file.  File-name templating and TIFF encoding are external
collaborators; their outcomes come from the environment. -/
def writeFile (env : HwEnv) (s : Session) : Nat × Session :=
  match s.pArray with
  | none => (asynError, s)
  | some _ =>
    if env.createFileNameStatus ≠ 0 then (env.createFileNameStatus, s)
    else if env.tiffStatus ≠ 1 then (asynError, s)
    else (asynSuccess,
      { s with store := setStringParam s.store ADFullFileName_RBV env.fullFileName })

/-- Frame completion status (`tPvErr` as seen by the callback). -/
inductive FrameStatus where
  | success
  | cancelled
  | err (code : Nat)
deriving DecidableEq

/-- Hardware pixel format of a completed frame (`tPvImageFormat`). -/
inductive PvFmt where
  | mono8
  | bayer8
  | mono16
  | bayer16
  | other (code : Nat)
deriving DecidableEq

/-- A frame-completion event (`tPvFrame` fields the callback reads).
`ctxImage` is the image buffer bound to the frame (`pFrame->Context[1]`)
and `slot` identifies which of the `MAX_FRAMES` frame slots completed. -/
structure FrameEvent where
  status : FrameStatus
  format : PvFmt
  width : Nat
  height : Nat
  frameCount : Nat
  timestampLo : Nat
  timestampHi : Nat
  slot : Nat
  ctxImage : NDArrayM
deriving DecidableEq

/-- Observable actions of one `frameCallback` invocation, in order:
mutex operations, the downstream NDArray plugin delivery, and the requeue
of the frame to the capture engine. -/
inductive CbEvent where
  | lock
  | unlock
  | plugin (img : NDArrayM)
  | queueFrame
deriving DecidableEq

/-- `prosilica::frameCallback` (prosilica.cpp:202-310).  Returns the state
after the callback together with the ordered trace of its observable
actions.  A cancelled frame returns before anything else happens; otherwise
the mutex is taken first, a successful frame is converted, installed as the
current image and delivered (with the mutex dropped around the delivery),
the remaining-frame count is decremented when positive and reaching zero
publishes Idle, the image counter advances, auto-save may write the file, a
fresh maximum-size buffer is bound to the slot, and the frame is requeued. -/
def frameCallback (env : HwEnv) (ev : FrameEvent) (s : Session) :
    Session × List CbEvent :=
  if ev.status = FrameStatus.cancelled then (s, [])
  else
    if ev.status = FrameStatus.success then
      let dataType : Int :=
        match ev.format with
        | .mono8 => NDUInt8
        | .bayer8 => NDUInt8
        | .mono16 => NDUInt16
        | .bayer16 => NDUInt16
        | .other _ => NDUInt32
      let freq := if s.timeStampFrequency = 0 then 1 else s.timeStampFrequency
      let img : NDArrayM :=
        { ev.ctxImage with
          dim0 := ev.width
          dim1 := ev.height
          dataType := dataType
          uniqueId := ev.frameCount
          timeStamp := ((ev.timestampLo : ℚ) +
            (ev.timestampHi : ℚ) * 4294967296) / (freq : ℚ) }
      let s := { s with pArray := some img, timeStampFrequency := freq }
      let s := if s.framesRemaining > 0 then
          { s with framesRemaining := s.framesRemaining - 1 }
        else s
      let s := if s.framesRemaining = 0 then
          { s with store :=
              setIntegerParam (setIntegerParam (setIntegerParam s.store
                ADAcquire 0) ADAcquire_RBV 0) ADStatus_RBV ADStatusIdle }
        else s
      let imageCounter := s.store.ints ADImageCounter + 1
      let s := { s with store :=
          (setIntegerParam (setIntegerParam s.store ADImageCounter imageCounter)
            ADImageCounter_RBV imageCounter) }
      let autoSave := s.store.ints ADAutoSave
      let s := if autoSave ≠ 0 then (writeFile env s).2 else s
      let fresh := { env.freshImage with
        dim0 := s.sensorWidth, dim1 := s.sensorHeight, dataType := NDInt8 }
      let s := { s with slots := s.slots.set ev.slot (some fresh) }
      (s, [.lock, .unlock, .plugin img, .lock, .queueFrame, .unlock])
    else
      let bad := s.store.ints PSBadFrameCounter_RBV + 1
      let s := { s with store := setIntegerParam s.store PSBadFrameCounter_RBV bad }
      (s, [.lock, .queueFrame, .unlock])

/-- `prosilica::disconnectCamera` (prosilica.cpp:488-518): a null handle is
an immediate no-op success; otherwise clear the capture queue, end capture,
close the camera (statuses or-ed), release every slot's bound image back to
the allocator and null the bindings, and null the handle.  (The source walks
the frame array with a pointer loop; the model iterates the declared
`MAX_FRAMES` slots, which is the data the loop visits.) -/
def disconnectCamera (env : HwEnv) (s : Session) : Nat × Session :=
  if s.pvHandle = false then (asynSuccess, s)
  else
    let st := env.captureQueueClearStatus ||| env.captureEndStatus |||
      env.cameraCloseStatus
    (st, { s with pvHandle := false, slots := s.slots.map (fun _ => none) })

/-- `prosilica::connectCamera`, final block (prosilica.cpp:629-655): publish
the initial identity/size parameters, run the consolidated parameter
read-back and the statistics read-back (each failure returns its status
without signalling connected), then signal connected to asynManager. -/
def connectFinish (env : HwEnv) (s : Session) : Nat × Session :=
  let p := s.store
  let p := setStringParam p ADManufacturer_RBV "Prosilica"
  let p := setStringParam p ADModel_RBV env.displayName
  let p := setIntegerParam p ADSizeX_RBV (s.sensorWidth : Int)
  let p := setIntegerParam p ADSizeY_RBV (s.sensorHeight : Int)
  let p := setIntegerParam p ADMaxSizeX_RBV (s.sensorWidth : Int)
  let p := setIntegerParam p ADMaxSizeY_RBV (s.sensorHeight : Int)
  let p := setIntegerParam p PSBadFrameCounter_RBV 0
  let rP := readParameters env p
  let s1 := { s with store := rP.2.1 }
  if rP.1 ≠ 0 then (rP.1, s1)
  else
    let rS := readStats env s1.store
    let s2 := { s1 with store := rS.2.1 }
    if rS.1 ≠ 0 then (rS.1, s2)
    else (rS.1, { s2 with connectedPublished := true })

/-- `prosilica::connectCamera`, buffer loop (prosilica.cpp:600-627), unrolled
for `MAX_FRAMES = 2`: allocate a maximum-size image per slot (a null
allocation aborts with an error), bind it to the slot, and queue the frame
(a queue failure aborts with an error, the slot left bound). -/
def connectBuffers (env : HwEnv) (s : Session) : Nat × Session :=
  match env.alloc 0 with
  | none => (asynError, s)
  | some img0 =>
    let s := { s with slots := s.slots.set 0 (some { img0 with
      dim0 := s.sensorWidth, dim1 := s.sensorHeight, dataType := NDInt8 }) }
    if env.queueFrameStatus 0 ≠ 0 then (asynError, s)
    else
      match env.alloc 1 with
      | none => (asynError, s)
      | some img1 =>
        let s := { s with slots := s.slots.set 1 (some { img1 with
          dim0 := s.sensorWidth, dim1 := s.sensorHeight, dataType := NDInt8 }) }
        if env.queueFrameStatus 1 ≠ 0 then (asynError, s)
        else connectFinish env s

/-- `prosilica::connectCamera`, sensor query (prosilica.cpp:580-599): read
the immutable sensor properties (aggregate failure aborts with an error)
and compute the maximum frame byte size. -/
def connectSensor (env : HwEnv) (s : Session) : Nat × Session :=
  let rType := env.attrEnumGet "SensorType"
  let rBits := env.attrUint32Get "SensorBits"
  let rWidth := env.attrUint32Get "SensorWidth"
  let rHeight := env.attrUint32Get "SensorHeight"
  let rFreq := env.attrUint32Get "TimeStampFrequency"
  let rIP := env.attrStringGet "DeviceIPAddress"
  let s := { s with
    sensorType := rType.2, sensorBits := rBits.2, sensorWidth := rWidth.2,
    sensorHeight := rHeight.2, timeStampFrequency := rFreq.2,
    IPAddress := rIP.2 }
  if rType.1 ||| rBits.1 ||| rWidth.1 ||| rHeight.1 ||| rFreq.1 ||| rIP.1 ≠ 0
  then (asynError, s)
  else
    let bytesPerPixel := (s.sensorBits - 1) / 8 + 1
    let bytesPerPixel :=
      if s.sensorType ≠ "Mono" then bytesPerPixel * 3 else bytesPerPixel
    let s := { s with
      maxFrameSize := s.sensorWidth * s.sensorHeight * bytesPerPixel }
    connectBuffers env s

/-- `prosilica::connectCamera` (prosilica.cpp:520-655): tear down any
previous connection, then run the connect sequence; device lookup, the
exclusive-access check and the open fail before a handle is held (the
vendor library does not assign the handle on a failed open), while the
packet-size negotiation and capture start fail with the opened handle
already set.  The remaining steps continue in `connectSensor`,
`connectBuffers` and `connectFinish`. -/
def connectCamera (env : HwEnv) (s : Session) : Nat × Session :=
  let s := (disconnectCamera env s).2
  if env.cameraInfoStatus ≠ 0 then (asynError, s)
  else if env.permittedAccessMaster = false then (asynError, s)
  else if env.cameraOpenStatus ≠ 0 then (asynError, s)
  else
    let s := { s with pvHandle := true }
    if env.adjustPacketSizeStatus ≠ 0 then (asynError, s)
    else if env.captureStartStatus ≠ 0 then (asynError, s)
    else connectSensor env s

/-- `prosilica::writeInt32` (prosilica.cpp:658-770).  Stores the value and
its read-back twin, dispatches on the parameter, and always finishes with
the consolidated `readParameters` poll; the returned status is the or of the
dispatch status and the poll status. -/
def writeInt32 (env : HwEnv) (s : Session) (function : Nat) (value : Int) :
    Nat × Session × List HwOp :=
  let s := { s with store :=
      (setIntegerParam (setIntegerParam s.store function value)
        (function + 1) value) }
  let branch : Nat × Session × List HwOp :=
    if function = ADBinX ∨ function = ADBinY ∨ function = ADMinX ∨
       function = ADSizeX ∨ function = ADMinY ∨ function = ADSizeY then
      let r := setGeometry env s.store
      (r.1, s, r.2)
    else if function = ADNumImages then
      (env.attrUint32Set "AcquisitionFrameCount" (toUint32 value), s,
       [.attrUint32Set "AcquisitionFrameCount" (toUint32 value)])
    else if function = ADImageMode then
      if value = ADImageSingle then
        (env.attrEnumSet "AcquisitionMode" "SingleFrame", s,
         [.attrEnumSet "AcquisitionMode" "SingleFrame"])
      else if value = ADImageMultiple then
        (env.attrEnumSet "AcquisitionMode" "MultiFrame", s,
         [.attrEnumSet "AcquisitionMode" "MultiFrame"])
      else if value = ADImageContinuous then
        (env.attrEnumSet "AcquisitionMode" "Continuous", s,
         [.attrEnumSet "AcquisitionMode" "Continuous"])
      else
        (asynSuccess, s, [])
    else if function = ADAcquire then
      if value ≠ 0 then
        let imageMode := s.store.ints ADImageMode
        let numImages := s.store.ints ADNumImages
        let s :=
          if imageMode = ADImageSingle then { s with framesRemaining := 1 }
          else if imageMode = ADImageMultiple then
            { s with framesRemaining := numImages }
          else if imageMode = ADImageContinuous then
            { s with framesRemaining := -1 }
          else s
        let s := { s with store :=
            setIntegerParam s.store ADStatus_RBV ADStatusAcquire }
        (env.commandRun "AcquisitionStart", s, [.commandRun "AcquisitionStart"])
      else
        let s := { s with store :=
            setIntegerParam s.store ADStatus_RBV ADStatusIdle }
        (env.commandRun "AcquisitionAbort", s, [.commandRun "AcquisitionAbort"])
    else if function = ADTriggerMode then
      if value < 0 ∨ value > 6 then (asynError, s, [])
      else
        let name := PSTriggerStartStrings.getD value.toNat ""
        (env.attrEnumSet "FrameStartTriggerMode" name, s,
         [.attrEnumSet "FrameStartTriggerMode" name])
    else if function = PSReadStatistics then
      let r := readStats env s.store
      (asynSuccess, { s with store := r.2.1 }, r.2.2)
    else if function = ADWriteFile then
      let r := writeFile env s
      (r.1, r.2, [])
    else if function = ADDataType then
      if value = NDInt8 ∨ value = NDUInt8 then
        (env.attrEnumSet "PixelFormat" "Mono8", s,
         [.attrEnumSet "PixelFormat" "Mono8"])
      else if value = NDInt16 ∨ value = NDUInt16 then
        (env.attrEnumSet "PixelFormat" "Mono16", s,
         [.attrEnumSet "PixelFormat" "Mono16"])
      else (asynError, s, [])
    else (asynSuccess, s, [])
  let s := branch.2.1
  let rP := readParameters env s.store
  (branch.1 ||| rP.1, { s with store := rP.2.1 }, branch.2.2 ++ rP.2.2)

/-- `prosilica::writeFloat64` (prosilica.cpp:772-817).  Stores the value and
its read-back twin, converts and writes the hardware attribute (exposure in
integer microseconds; acquire period as a frame rate with a requested 0
replaced by 0.01 s before taking the reciprocal; gain as an integer), then
runs the consolidated `readParameters` poll. -/
def writeFloat64 (env : HwEnv) (s : Session) (function : Nat) (value : ℚ) :
    Nat × Session × List HwOp :=
  let s := { s with store :=
      (setDoubleParam (setDoubleParam s.store function value)
        (function + 1) value) }
  let branch : Nat × List HwOp :=
    if function = ADAcquireTime then
      let intVal := toUint32q (value * 1000000)
      (env.attrUint32Set "ExposureValue" intVal,
       [.attrUint32Set "ExposureValue" intVal])
    else if function = ADAcquirePeriod then
      let value := if value = 0 then (1 : ℚ) / 100 else value
      let fltVal := 1 / value
      (env.attrFloat32Set "FrameRate" fltVal,
       [.attrFloat32Set "FrameRate" fltVal])
    else if function = ADGain then
      let intVal := toUint32q value
      (env.attrUint32Set "GainValue" intVal,
       [.attrUint32Set "GainValue" intVal])
    else (asynSuccess, [])
  let rP := readParameters env s.store
  (branch.1 ||| rP.1, { s with store := rP.2.1 }, branch.2 ++ rP.2.2)

/-- Fold a sequence of frame-completion events through `frameCallback`. -/
def runFrames (env : HwEnv) (evs : List FrameEvent) (s : Session) : Session :=
  match evs with
  | [] => s
  | ev :: rest => runFrames env rest (frameCallback env ev s).1

/-! Concrete fixtures used to instantiate the theorems below. -/

/-- A zero-initialised image buffer. -/
def img0 : NDArrayM := ⟨0, 0, 0, 0, 0⟩

/-- A benign hardware environment: every call succeeds and every get
returns zero / the empty string. -/
def env0 : HwEnv where
  attrUint32Get := fun _ => (0, 0)
  attrFloat32Get := fun _ => (0, 0)
  attrEnumGet := fun _ => (0, "")
  attrStringGet := fun _ => (0, "")
  attrUint32Set := fun _ _ => 0
  attrFloat32Set := fun _ _ => 0
  attrEnumSet := fun _ _ => 0
  commandRun := fun _ => 0
  cameraInfoStatus := 0
  permittedAccessMaster := true
  cameraOpenStatus := 0
  adjustPacketSizeStatus := 0
  captureStartStatus := 0
  captureQueueClearStatus := 0
  captureEndStatus := 0
  cameraCloseStatus := 0
  queueFrameStatus := fun _ => 0
  alloc := fun _ => some img0
  freshImage := img0
  createFileNameStatus := 0
  fullFileName := ""
  tiffStatus := 1
  displayName := ""

/-- The all-zero parameter store. -/
def store0 : Store := ⟨fun _ => 0, fun _ => 0, fun _ => ""⟩

/-- A disconnected session with the all-zero store. -/
def session0 : Session where
  pvHandle := false
  connectedPublished := false
  store := store0
  framesRemaining := 0
  timeStampFrequency := 0
  sensorType := "Mono"
  sensorBits := 8
  sensorWidth := 4
  sensorHeight := 4
  maxFrameSize := 16
  IPAddress := ""
  pArray := none
  slots := [none, none]

/-- A successful frame-completion event with concrete numbers. -/
def evSuccess : FrameEvent where
  status := .success
  format := .mono8
  width := 2
  height := 2
  frameCount := 7
  timestampLo := 5
  timestampHi := 1
  slot := 0
  ctxImage := img0

/-- The same event with the cancelled status. -/
def evCancelled : FrameEvent := { evSuccess with status := .cancelled }

/-! Helper lemmas shared by the claim theorems. -/

theorem setIntegerParam_ints (p : Store) (i : Nat) (v : Int) :
    (setIntegerParam p i v).ints = upd p.ints i v := rfl

theorem setIntegerParam_doubles (p : Store) (i : Nat) (v : Int) :
    (setIntegerParam p i v).doubles = p.doubles := rfl

theorem setStringParam_ints (p : Store) (i : Nat) (v : String) :
    (setStringParam p i v).ints = p.ints := rfl

theorem writeFile_pArray (env : HwEnv) (s : Session) :
    (writeFile env s).2.pArray = s.pArray := by
  unfold writeFile
  rcases hp : s.pArray with _ | img
  · exact hp
  · split_ifs <;> first | rfl | exact hp

theorem writeFile_ints (env : HwEnv) (s : Session) :
    (writeFile env s).2.store.ints = s.store.ints := by
  unfold writeFile
  rcases hp : s.pArray with _ | img
  · rfl
  · split_ifs <;> rfl

theorem writeFile_framesRemaining (env : HwEnv) (s : Session) :
    (writeFile env s).2.framesRemaining = s.framesRemaining := by
  unfold writeFile
  rcases hp : s.pArray with _ | img
  · rfl
  · split_ifs <;> rfl

theorem readParameters_trace (env : HwEnv) (p : Store) :
    (readParameters env p).2.2 = readParametersOps := rfl

theorem disconnectCamera_pvHandle (env : HwEnv) (s : Session) :
    (disconnectCamera env s).2.pvHandle = false := by
  unfold disconnectCamera
  split_ifs with h
  · exact h
  · rfl

theorem disconnectCamera_connectedPublished (env : HwEnv) (s : Session) :
    (disconnectCamera env s).2.connectedPublished = s.connectedPublished := by
  unfold disconnectCamera
  split_ifs <;> rfl

/-! C3: the geometry round trip at bin=2, origin=(10,20), size=(100,200). -/

/-- The store holding logical bin=2, origin=(10,20), size=(100,200). -/
def geomStore : Store :=
  setIntegerParam (setIntegerParam (setIntegerParam (setIntegerParam
    (setIntegerParam (setIntegerParam store0 ADBinX 2) ADBinY 2) ADMinX 10)
    ADMinY 20) ADSizeX 100) ADSizeY 200

/-- A hardware environment whose geometry attributes read back exactly the
values `setGeometry` derives from `geomStore`. -/
def envGeom : HwEnv := { env0 with
  attrUint32Get := fun n =>
    if n = "BinningX" then (0, 2)
    else if n = "BinningY" then (0, 2)
    else if n = "RegionX" then (0, 5)
    else if n = "RegionY" then (0, 10)
    else if n = "Width" then (0, 50)
    else if n = "Height" then (0, 100)
    else (0, 0) }

/-- C3: writing logical bin=2, origin=(10,20), size=(100,200) issues exactly
the hardware writes BinningX=2, BinningY=2, RegionX=5, RegionY=10, Width=50,
Height=100 (region and size divided by the bin factor), and reading back
exactly those hardware values republishes logical origin=(10,20) and
size=(100,200) (and the same values on the read-back parameters), by the
reverse multiplication. -/
theorem setGeometry_getGeometry_round_trip :
    (setGeometry env0 geomStore).2 =
      [HwOp.attrUint32Set "BinningX" 2, HwOp.attrUint32Set "BinningY" 2,
       HwOp.attrUint32Set "RegionX" 5, HwOp.attrUint32Set "RegionY" 10,
       HwOp.attrUint32Set "Width" 50, HwOp.attrUint32Set "Height" 100] ∧
    (getGeometry envGeom store0).2.1.ints ADBinX = 2 ∧
    (getGeometry envGeom store0).2.1.ints ADBinY = 2 ∧
    (getGeometry envGeom store0).2.1.ints ADMinX = 10 ∧
    (getGeometry envGeom store0).2.1.ints ADMinY = 20 ∧
    (getGeometry envGeom store0).2.1.ints ADSizeX = 100 ∧
    (getGeometry envGeom store0).2.1.ints ADSizeY = 200 ∧
    (getGeometry envGeom store0).2.1.ints ADMinX_RBV = 10 ∧
    (getGeometry envGeom store0).2.1.ints ADMinY_RBV = 20 ∧
    (getGeometry envGeom store0).2.1.ints ADSizeX_RBV = 100 ∧
    (getGeometry envGeom store0).2.1.ints ADSizeY_RBV = 200 := by
  decide

/-! C5: the acquire-period zero guards. -/

/-- C5: with the hardware frame rate reading back as 0 the published
acquire-period is exactly 1, and a client write of acquire-period = 0
issues a FrameRate hardware write of 1/0.01 = 100 Hz (the only hardware
write of that call is its first traced operation). -/
theorem acquirePeriod_zero_guards :
    (readParameters env0 store0).2.1.doubles ADAcquirePeriod_RBV = 1 ∧
    (writeFloat64 env0 session0 ADAcquirePeriod 0).2.2.head? =
      some (HwOp.attrFloat32Set "FrameRate" 100) := by
  constructor
  · norm_num [readParameters, env0, store0, getGeometry, setIntegerParam,
      setDoubleParam, setStringParam, upd, ADAcquirePeriod_RBV, ADGain_RBV,
      ADAcquireTime_RBV]
  · norm_num [writeFloat64, readParameters_trace, ADAcquirePeriod,
      ADAcquireTime, env0]

/-! C1: the cancelled-status early return of the frame callback. -/

/-- C1: a frame-completion event with the cancelled status makes the
callback return immediately: the session state is returned unchanged and
the action trace is empty (no lock acquisition, no mutation); for any other
status the first action of the callback is acquiring the mutex. -/
theorem frameCallback_cancelled_returns_immediately (env : HwEnv)
    (ev : FrameEvent) (s : Session) :
    (ev.status = FrameStatus.cancelled → frameCallback env ev s = (s, [])) ∧
    (ev.status ≠ FrameStatus.cancelled →
      (frameCallback env ev s).2.head? = some CbEvent.lock) := by
  constructor
  · intro h
    simp [frameCallback, h]
  · intro h
    by_cases hs : ev.status = FrameStatus.success <;>
      simp [frameCallback, h, hs]

/-- C1 witness: the theorem at a concrete cancelled event and a concrete
successful event. -/
theorem frameCallback_cancelled_returns_immediately_witness :
    frameCallback env0 evCancelled session0 = (session0, []) ∧
    (frameCallback env0 evSuccess session0).2.head? = some CbEvent.lock :=
  ⟨(frameCallback_cancelled_returns_immediately env0 evCancelled session0).1
      rfl,
   (frameCallback_cancelled_returns_immediately env0 evSuccess session0).2
      (by decide)⟩

/-! C9: idempotence of disconnect. -/

/-- C9: disconnecting an already-disconnected session (no hardware handle)
returns success and leaves the state untouched; consequently, after any
disconnect call, a second consecutive disconnect returns success and is a
no-op. -/
theorem disconnectCamera_idempotent (env env2 : HwEnv) (s : Session) :
    (s.pvHandle = false → disconnectCamera env s = (asynSuccess, s)) ∧
    disconnectCamera env2 (disconnectCamera env s).2 =
      (asynSuccess, (disconnectCamera env s).2) := by
  constructor
  · intro h
    simp [disconnectCamera, h]
  · by_cases h : s.pvHandle = false <;> simp [disconnectCamera, h]

/-- C9 witness: both consecutive disconnect calls on a disconnected session
succeed and change nothing. -/
theorem disconnectCamera_idempotent_witness :
    disconnectCamera env0 session0 = (asynSuccess, session0) ∧
    disconnectCamera env0 (disconnectCamera env0 session0).2 =
      (asynSuccess, (disconnectCamera env0 session0).2) :=
  ⟨(disconnectCamera_idempotent env0 env0 session0).1 rfl,
   (disconnectCamera_idempotent env0 env0 session0).2⟩

/-! C4: the published frame timestamp. -/

/-- C4: for a successful frame completion the published image timestamp is
(timestampLo + timestampHi * 2^32) divided by the device-reported timestamp
frequency, with a frequency of 0 treated as 1, so the divisor is never
zero. -/
theorem frameCallback_timestamp (env : HwEnv) (ev : FrameEvent) (s : Session)
    (h : ev.status = FrameStatus.success) :
    ((frameCallback env ev s).1.pArray).map NDArrayM.timeStamp =
      some (((ev.timestampLo : ℚ) + (ev.timestampHi : ℚ) * 2 ^ 32) /
        (if s.timeStampFrequency = 0 then 1 else (s.timeStampFrequency : ℚ))) ∧
    (if s.timeStampFrequency = 0 then (1 : ℚ)
      else (s.timeStampFrequency : ℚ)) ≠ 0 := by
  constructor
  · simp only [frameCallback, h]
    simp only [reduceCtorEq, if_false, if_true, eq_self_iff_true]
    simp only [apply_ite Session.pArray, writeFile_pArray]
    simp only [ite_self]
    by_cases hf : s.timeStampFrequency = 0 <;> simp [hf] <;> norm_num
  · by_cases hf : s.timeStampFrequency = 0 <;> simp [hf]

/-- C4 witness: the theorem at a concrete successful event (session
timestamp frequency 0, so the divisor guard is exercised). -/
theorem frameCallback_timestamp_witness :
    ((frameCallback env0 evSuccess session0).1.pArray).map NDArrayM.timeStamp =
      some (((evSuccess.timestampLo : ℚ) +
        (evSuccess.timestampHi : ℚ) * 2 ^ 32) /
        (if session0.timeStampFrequency = 0 then 1
          else (session0.timeStampFrequency : ℚ))) ∧
    (if session0.timeStampFrequency = 0 then (1 : ℚ)
      else (session0.timeStampFrequency : ℚ)) ≠ 0 :=
  frameCallback_timestamp env0 evSuccess session0 rfl

/-! C8: continuous acquisition never reaches a remaining count of zero. -/

theorem frameCallback_keeps_unbounded (env : HwEnv) (ev : FrameEvent)
    (s : Session) (h : s.framesRemaining = -1) :
    (frameCallback env ev s).1.framesRemaining = -1 := by
  rcases hst : ev.status with _ | _ | code
  · simp only [frameCallback, hst, reduceCtorEq, if_false, if_true,
      eq_self_iff_true]
    simp only [apply_ite Session.framesRemaining, writeFile_framesRemaining,
      ite_self]
    simp [h]
  · simp [frameCallback, hst, h]
  · simp [frameCallback, hst, h]

theorem runFrames_keeps_unbounded (env : HwEnv) (evs : List FrameEvent)
    (s : Session) (h : s.framesRemaining = -1) :
    (runFrames env evs s).framesRemaining = -1 := by
  induction evs generalizing s with
  | nil => simpa [runFrames] using h
  | cons ev rest ih =>
    simp only [runFrames]
    exact ih _ (frameCallback_keeps_unbounded env ev s h)

/-- C8: starting acquisition with the mode parameter at "continuous" sets
the remaining-frame count to the unbounded sentinel -1, and no sequence of
frame completions of any length ever brings it to zero (the callback
decrements only a strictly positive count). -/
theorem continuous_mode_never_reaches_zero (env env2 : HwEnv) (s : Session)
    (value : Int) (evs : List FrameEvent)
    (hmode : s.store.ints ADImageMode = ADImageContinuous) (hv : value ≠ 0) :
    (writeInt32 env s ADAcquire value).2.1.framesRemaining = -1 ∧
    (runFrames env2 evs
      (writeInt32 env s ADAcquire value).2.1).framesRemaining ≠ 0 := by
  have h1 : (writeInt32 env s ADAcquire value).2.1.framesRemaining = -1 := by
    simp only [writeInt32, ADAcquire, ADBinX, ADBinY, ADMinX, ADSizeX, ADMinY,
      ADSizeY, ADNumImages, ADImageMode, ADTriggerMode, PSReadStatistics,
      ADWriteFile, ADDataType, ADImageSingle, ADImageMultiple,
      ADImageContinuous, setIntegerParam, upd] at *
    simp [hv, hmode]
  refine ⟨h1, ?_⟩
  rw [runFrames_keeps_unbounded env2 evs _ h1]
  decide

/-- A session whose mode parameter holds the continuous mode. -/
def sessionCont : Session :=
  { session0 with store := setIntegerParam store0 ADImageMode ADImageContinuous }

/-- C8 witness: the theorem at a concrete continuous-mode session and a
concrete two-event completion sequence. -/
theorem continuous_mode_never_reaches_zero_witness :
    (writeInt32 env0 sessionCont ADAcquire 1).2.1.framesRemaining = -1 ∧
    (runFrames env0 [evSuccess, evSuccess]
      (writeInt32 env0 sessionCont ADAcquire 1).2.1).framesRemaining ≠ 0 :=
  continuous_mode_never_reaches_zero env0 env0 sessionCont 1
    [evSuccess, evSuccess] (by decide) (by decide)

/-! C6: out-of-range trigger-mode writes. -/

/-- C6: a trigger-mode write with an index outside the fixed 7-entry table
returns an error status, issues no hardware attribute write at all (in
particular no trigger-mode write; the call's whole trace is the
read-back's get-trace), and the consolidated parameter read-back still runs
afterward on the updated store. -/
theorem writeInt32_triggerMode_out_of_range (env : HwEnv) (s : Session)
    (value : Int) (h : value < 0 ∨ value > 6) :
    (writeInt32 env s ADTriggerMode value).1 ≠ asynSuccess ∧
    (writeInt32 env s ADTriggerMode value).2.2 = readParametersOps ∧
    (writeInt32 env s ADTriggerMode value).2.2.filter HwOp.isAttrWrite = [] ∧
    (writeInt32 env s ADTriggerMode value).2.1.store =
      (readParameters env (setIntegerParam (setIntegerParam s.store
        ADTriggerMode value) ADTriggerMode_RBV value)).2.1 := by
  simp only [writeInt32, ADTriggerMode, ADTriggerMode_RBV, ADBinX, ADBinY,
    ADMinX, ADSizeX, ADMinY, ADSizeY, ADNumImages, ADImageMode, ADAcquire,
    PSReadStatistics, ADWriteFile, ADDataType, if_pos h]
  norm_num [readParameters_trace, lor_eq_zero_iff, asynError, asynSuccess]
  decide

/-- C6 witness: the theorem at the out-of-range index 99. -/
theorem writeInt32_triggerMode_out_of_range_witness :
    (writeInt32 env0 session0 ADTriggerMode 99).1 ≠ asynSuccess ∧
    (writeInt32 env0 session0 ADTriggerMode 99).2.2 = readParametersOps ∧
    (writeInt32 env0 session0 ADTriggerMode 99).2.2.filter
      HwOp.isAttrWrite = [] ∧
    (writeInt32 env0 session0 ADTriggerMode 99).2.1.store =
      (readParameters env0 (setIntegerParam (setIntegerParam session0.store
        ADTriggerMode 99) ADTriggerMode_RBV 99)).2.1 :=
  writeInt32_triggerMode_out_of_range env0 session0 99 (by decide)

/-! C10: image-mode writes with an unsupported value fall through. -/

/-- C10: an image-mode write whose value is none of the three supported
logical modes issues no hardware attribute write at all (the call's whole
trace is the read-back's get-trace) and contributes no error status: the
returned status is exactly the consolidated read-back's status. -/
theorem writeInt32_imageMode_unsupported (env : HwEnv) (s : Session)
    (value : Int) (h0 : value ≠ ADImageSingle) (h1 : value ≠ ADImageMultiple)
    (h2 : value ≠ ADImageContinuous) :
    (writeInt32 env s ADImageMode value).2.2 = readParametersOps ∧
    (writeInt32 env s ADImageMode value).2.2.filter HwOp.isAttrWrite = [] ∧
    (writeInt32 env s ADImageMode value).1 =
      (readParameters env (setIntegerParam (setIntegerParam s.store
        ADImageMode value) ADImageMode_RBV value)).1 := by
  simp only [writeInt32, ADImageMode, ADImageMode_RBV, ADBinX, ADBinY, ADMinX,
    ADSizeX, ADMinY, ADSizeY, ADNumImages, ADAcquire, ADTriggerMode,
    PSReadStatistics, ADWriteFile, ADDataType, if_neg h0, if_neg h1, if_neg h2]
  norm_num [readParameters_trace, asynSuccess, Nat.zero_or]
  decide

/-- C10 witness: the theorem at the unsupported mode value 5. -/
theorem writeInt32_imageMode_unsupported_witness :
    (writeInt32 env0 session0 ADImageMode 5).2.2 = readParametersOps ∧
    (writeInt32 env0 session0 ADImageMode 5).2.2.filter
      HwOp.isAttrWrite = [] ∧
    (writeInt32 env0 session0 ADImageMode 5).1 =
      (readParameters env0 (setIntegerParam (setIntegerParam session0.store
        ADImageMode 5) ADImageMode_RBV 5)).1 :=
  writeInt32_imageMode_unsupported env0 session0 5 (by decide) (by decide)
    (by decide)

/-! C7: single-mode acquisition completes to Idle after one frame. -/

theorem frameCallback_last_frame (env : HwEnv) (ev : FrameEvent) (s : Session)
    (h1 : s.framesRemaining = 1) (hst : ev.status = FrameStatus.success) :
    (frameCallback env ev s).1.framesRemaining = 0 ∧
    (frameCallback env ev s).1.store.ints ADAcquire = 0 ∧
    (frameCallback env ev s).1.store.ints ADAcquire_RBV = 0 ∧
    (frameCallback env ev s).1.store.ints ADStatus_RBV = ADStatusIdle := by
  simp only [frameCallback, hst, reduceCtorEq, if_false, if_true,
    eq_self_iff_true]
  simp only [apply_ite Session.framesRemaining, apply_ite Session.store,
    writeFile_framesRemaining, writeFile_ints, apply_ite Store.ints,
    ite_apply, ite_self]
  simp [h1, setIntegerParam, upd, ADAcquire, ADAcquire_RBV, ADStatus_RBV,
    ADImageCounter, ADImageCounter_RBV, ADAutoSave, ADStatusIdle]

/-- C7: starting acquisition with the mode parameter at "single" sets the
remaining-frame count to 1, and the first subsequent successful frame
completion decrements it to exactly 0, publishes the Idle status, and
publishes the acquisition command parameter (and its read-back) as 0. -/
theorem single_mode_acquire_completes_to_idle (env env2 : HwEnv) (s : Session)
    (ev : FrameEvent) (value : Int)
    (hmode : s.store.ints ADImageMode = ADImageSingle)
    (hv : value ≠ 0) (hst : ev.status = FrameStatus.success) :
    (writeInt32 env s ADAcquire value).2.1.framesRemaining = 1 ∧
    (frameCallback env2 ev
      (writeInt32 env s ADAcquire value).2.1).1.framesRemaining = 0 ∧
    (frameCallback env2 ev
      (writeInt32 env s ADAcquire value).2.1).1.store.ints ADAcquire = 0 ∧
    (frameCallback env2 ev
      (writeInt32 env s ADAcquire value).2.1).1.store.ints ADAcquire_RBV = 0 ∧
    (frameCallback env2 ev
      (writeInt32 env s ADAcquire value).2.1).1.store.ints ADStatus_RBV =
      ADStatusIdle := by
  have h1 : (writeInt32 env s ADAcquire value).2.1.framesRemaining = 1 := by
    simp only [writeInt32, ADAcquire, ADBinX, ADBinY, ADMinX, ADSizeX, ADMinY,
      ADSizeY, ADNumImages, ADImageMode, ADTriggerMode, PSReadStatistics,
      ADWriteFile, ADDataType, ADImageSingle, ADImageMultiple,
      ADImageContinuous, setIntegerParam, upd] at *
    simp [hv, hmode]
  have h2 := frameCallback_last_frame env2 ev _ h1 hst
  exact ⟨h1, h2.1, h2.2.1, h2.2.2.1, h2.2.2.2⟩

/-- C7 witness: the theorem at a concrete single-mode session (the all-zero
store holds the single mode) and a concrete successful event. -/
theorem single_mode_acquire_completes_to_idle_witness :
    (writeInt32 env0 session0 ADAcquire 1).2.1.framesRemaining = 1 ∧
    (frameCallback env0 evSuccess
      (writeInt32 env0 session0 ADAcquire 1).2.1).1.framesRemaining = 0 ∧
    (frameCallback env0 evSuccess
      (writeInt32 env0 session0 ADAcquire 1).2.1).1.store.ints ADAcquire = 0 ∧
    (frameCallback env0 evSuccess
      (writeInt32 env0 session0 ADAcquire 1).2.1).1.store.ints
      ADAcquire_RBV = 0 ∧
    (frameCallback env0 evSuccess
      (writeInt32 env0 session0 ADAcquire 1).2.1).1.store.ints ADStatus_RBV =
      ADStatusIdle :=
  single_mode_acquire_completes_to_idle env0 env0 session0 evSuccess 1 rfl
    (by decide) rfl

/-! C2: teardown on connect failure (corrected). -/

/-- A hardware environment in which the packet-size negotiation step fails. -/
def envPacketFail : HwEnv := { env0 with adjustPacketSizeStatus := 1 }

/-- A hardware environment in which the device lookup step fails. -/
def envInfoFail : HwEnv := { env0 with cameraInfoStatus := 1 }

/-- C2 counterexample: a connect attempt on a disconnected session that
fails at the packet-size negotiation step returns an error but leaves the
just-opened hardware handle set — the session is not fully torn down, so
the claim as stated is false. -/
theorem connectCamera_packet_fail_leaves_handle_open :
    (connectCamera envPacketFail session0).1 ≠ asynSuccess ∧
    (connectCamera envPacketFail session0).2.pvHandle = true := by
  decide

theorem connectFinish_pub_char (env : HwEnv) (s : Session) :
    (connectFinish env s).2.connectedPublished = s.connectedPublished ∨
    (connectFinish env s).1 = asynSuccess := by
  simp only [connectFinish]
  split_ifs <;> simp_all [asynSuccess]

theorem connectBuffers_pub_char (env : HwEnv) (s : Session) :
    (connectBuffers env s).2.connectedPublished = s.connectedPublished ∨
    (connectBuffers env s).1 = asynSuccess := by
  rcases ha0 : env.alloc 0 with _ | img0 <;>
    rcases ha1 : env.alloc 1 with _ | img1 <;>
      simp only [connectBuffers, ha0, ha1] <;>
        first
          | (left; trivial)
          | (split_ifs <;>
              first
                | (left; trivial)
                | exact connectFinish_pub_char env _)

theorem connectSensor_pub_char (env : HwEnv) (s : Session) :
    (connectSensor env s).2.connectedPublished = s.connectedPublished ∨
    (connectSensor env s).1 = asynSuccess := by
  simp only [connectSensor]
  split_ifs <;>
    first
      | (left; trivial)
      | exact connectBuffers_pub_char env _

theorem connectCamera_pub_char (env : HwEnv) (s : Session) :
    (connectCamera env s).2.connectedPublished = s.connectedPublished ∨
    (connectCamera env s).1 = asynSuccess := by
  simp only [connectCamera]
  split_ifs <;>
    first
      | (left; exact disconnectCamera_connectedPublished env s)
      | (rcases connectSensor_pub_char env
            { (disconnectCamera env s).2 with pvHandle := true } with h | h
         · left
           rw [h]
           exact disconnectCamera_connectedPublished env s
         · right
           exact h)

theorem connectCamera_early_fail (env : HwEnv) (s : Session)
    (h : env.cameraInfoStatus ≠ 0 ∨ env.permittedAccessMaster = false ∨
      env.cameraOpenStatus ≠ 0) :
    (connectCamera env s).2.pvHandle = false ∧
    (connectCamera env s).1 = asynError := by
  by_cases h1 : env.cameraInfoStatus ≠ 0 <;>
    by_cases h2 : env.permittedAccessMaster = false <;>
      by_cases h3 : env.cameraOpenStatus ≠ 0 <;>
        simp_all [connectCamera, disconnectCamera_pvHandle]

/-- C2 amended: a failing connect attempt on a disconnected session returns
an error status and never publishes the connected state; when the failure is
at the device lookup, the exclusive-access check or the open, no hardware
handle is held either — but failures after a successful open leave the
handle set (see the counterexample), torn down only by the next connect or
an explicit disconnect. -/
theorem connectCamera_fail_keeps_disconnected_state (env : HwEnv)
    (s : Session) (hpub : s.connectedPublished = false)
    (hfail : (connectCamera env s).1 ≠ asynSuccess) :
    (connectCamera env s).2.connectedPublished = false ∧
    ((env.cameraInfoStatus ≠ 0 ∨ env.permittedAccessMaster = false ∨
        env.cameraOpenStatus ≠ 0) →
      (connectCamera env s).2.pvHandle = false ∧
      (connectCamera env s).1 = asynError) := by
  refine ⟨?_, fun h => connectCamera_early_fail env s h⟩
  rcases connectCamera_pub_char env s with h | h
  · rw [h, hpub]
  · exact absurd h hfail

/-- C2 witness: the amended theorem at a concrete lookup-failure
environment, with the early-failure implication discharged. -/
theorem connectCamera_fail_keeps_disconnected_state_witness :
    (connectCamera envInfoFail session0).2.connectedPublished = false ∧
    (connectCamera envInfoFail session0).2.pvHandle = false ∧
    (connectCamera envInfoFail session0).1 = asynError :=
  ⟨(connectCamera_fail_keeps_disconnected_state envInfoFail session0 rfl
      (by decide)).1,
   ((connectCamera_fail_keeps_disconnected_state envInfoFail session0 rfl
      (by decide)).2 (Or.inl (by decide))).1,
   ((connectCamera_fail_keeps_disconnected_state envInfoFail session0 rfl
      (by decide)).2 (Or.inl (by decide))).2⟩

end Prosilica
